import Mathlib

/-!
Verification of the cross-repository relationship inference engine
(`api/repo_relations.py`).

The Python source is shallowly embedded: pure helper functions become Lean
functions over the same data; filesystem reads are modelled by explicit maps
`String → Option String` (`none` = missing file / I/O failure); `json.load`
is modelled by an abstract parser `String → Option Json`; the module-global
analysis status and the persisted relations file become explicit state that
is threaded through the orchestrator; a Python exception becomes an
`Except`/`Option` failure value.
-/

set_option maxRecDepth 10000

namespace RepoRelations

/-- Model of a parsed JSON value (the result of Python `json.load`).
`obj` models a Python dict produced by the `json` module, whose keys are
unique; `num` carries an integer approximation of a JSON number (no claim
below inspects numeric values). -/
inductive Json where
  | null : Json
  | bool (b : Bool) : Json
  | num (n : Int) : Json
  | str (s : String) : Json
  | arr (xs : List Json) : Json
  | obj (kvs : List (String × Json)) : Json

/-- A relationship edge, modelling the Python edge dicts
`{"from", "to", "type", "description"}` with an optional `"confidence"`
key (present only on import-layer edges; `edge.get("confidence")` on the
other layers' dicts returns `None`, i.e. `Option.none`).  `from` is a Lean
keyword, hence the field names `src`/`dst`. -/
structure Edge where
  src : String
  dst : String
  type : String
  description : String
  confidence : Option String
deriving DecidableEq, Repr

/-- A node entry of the persisted graph, modelling the Python dict
`{"path", "summary", "tech_stack", "related"}` built by
`analyze_all_relations`. -/
structure RepoInfo where
  path : String
  summary : String
  tech_stack : List String
  related : List String
deriving DecidableEq, Repr

/-- The persisted relations graph, modelling the JSON document
`{"analyzed_at", "repos", "edges"}` that `analyze_all_relations` builds and
`save_relations` writes.  `repos` is an association list modelling the
Python dict (unique keys, insertion ordered). -/
structure RelGraph where
  analyzed_at : Option String
  repos : List (String × RepoInfo)
  edges : List Edge
deriving DecidableEq, Repr

/-- The module-global `_analysis_status` dict. -/
structure AnalysisStatus where
  running : Bool
  progress : String
  error : Option String
deriving DecidableEq, Repr

-- ---------------------------------------------------------------------------
-- Step 6 of `analyze_all_relations`: merge edges with priority
-- (repo_relations.py lines 809-836)
-- ---------------------------------------------------------------------------

/-- One iteration of the merge loops: `pair = (edge["from"], edge["to"])`;
if `pair not in seen_pairs` then `seen_pairs.add(pair)` and
`all_edges.append(edge)`.  The state is `(seen_pairs, all_edges)`; the
seen-set is modelled as a list used only through membership. -/
def mergeStep (st : List (String × String) × List Edge) (edge : Edge) :
    List (String × String) × List Edge :=
  let pair := (edge.src, edge.dst)
  if pair ∈ st.1 then st else (pair :: st.1, st.2 ++ [edge])

/-- The merge step of `analyze_all_relations` (lines 811-836): three
sequential loops over layer 1 (code-dependency edges), layer 2
(import-based edges, high confidence then medium confidence), and layer 3
(semantic edges), sharing one `seen_pairs` set and one output list. -/
def mergeEdges (code_edges import_edges semantic_edges : List Edge) : List Edge :=
  let import_high := import_edges.filter (fun e => e.confidence = some "high")
  let import_medium := import_edges.filter (fun e => e.confidence = some "medium")
  let st1 := code_edges.foldl mergeStep ([], [])
  let st2 := (import_high ++ import_medium).foldl mergeStep st1
  let st3 := semantic_edges.foldl mergeStep st2
  st3.2

/-- The concatenation of the three layers' proposals in merge-priority
order: code dependencies, then the import edges of high confidence, then
those of medium confidence, then semantic edges. -/
def priorityList (code_edges import_edges semantic_edges : List Edge) : List Edge :=
  code_edges
    ++ import_edges.filter (fun e => e.confidence = some "high")
    ++ import_edges.filter (fun e => e.confidence = some "medium")
    ++ semantic_edges

-- ---------------------------------------------------------------------------
-- Code dependency scanning: manifest parsers (repo_relations.py lines 60-206)
--
-- Each Python parser opens a file and swallows every exception, returning the
-- dependencies accumulated so far.  Five of the six parsers consume the file
-- in one step (`json.load(f)` or `content = f.read()`) before accumulating
-- anything, so for them a read/decode failure is all-or-nothing and is
-- modelled as `fs : String → Option String` mapping a path to the decoded
-- text content (`none` = the open/read fails); `json.load` is modelled by an
-- abstract `jsonLoad : String → Option Json` (`none` = the content is not
-- valid JSON, i.e. `json.load` raises).  Text processing after a successful
-- read is total in Python for the regex-based parsers, so their only
-- exception source is the read (plus, for package.json, the JSON parse).
-- `_parse_requirements_txt` is different: it iterates the file lazily with
-- `deps` accumulated across the `try`, so a failure swallowed mid-iteration
-- returns the possibly non-empty prefix accumulated so far — its read is
-- modelled as a lazy line stream (see `parse_requirements_txt`).
-- ---------------------------------------------------------------------------

/-- Whitespace class of Python's `re` module `\s` and `str.split()`
(ASCII part; the claims never hinge on non-ASCII whitespace). -/
def isPyWs (c : Char) : Bool :=
  c = ' ' || c = '\t' || c = '\n' || c = '\r' || c = '\x0b' || c = '\x0c'

-- Structural models of the Python string methods the source uses.  (The
-- corresponding Lean `String` library functions are implemented on byte
-- positions with well-founded recursion; these char-list versions compute
-- the same strings and evaluate by kernel reduction.)

/-- Python `str.lower()` (ASCII case mapping; every name the source
compares after lowering is ASCII). -/
def pyLower (s : String) : String :=
  String.mk (s.data.map Char.toLower)

/-- Python `str.strip()`. -/
def pyStrip (s : String) : String :=
  String.mk (((s.data.dropWhile isPyWs).reverse.dropWhile isPyWs).reverse)

/-- Match a literal character sequence at the head of the input, returning
the remaining input on success. -/
def matchLit : List Char → List Char → Option (List Char)
  | [], cs => some cs
  | _ :: _, [] => none
  | l :: ls, c :: cs => if c = l then matchLit ls cs else none

/-- Python `str.startswith(p)`. -/
def pyStartsWith (s p : String) : Bool :=
  (matchLit p.data s.data).isSome

/-- Helper of the split functions: cut the char list at every separator
character, accumulating the current piece (reversed). -/
def splitPredAux (p : Char → Bool) : List Char → List Char → List String
  | [], cur => [String.mk cur.reverse]
  | c :: rest, cur =>
    if p c then String.mk cur.reverse :: splitPredAux p rest []
    else splitPredAux p rest (c :: cur)

/-- Python `str.split(sep)` for a one-character separator (the source only
splits on `"/"`, `":"` and newlines): empty pieces are kept, and the empty
string yields `[""]`. -/
def splitOnChar (sep : Char) (s : String) : List String :=
  splitPredAux (fun c => c = sep) s.data []

/-- Python string comparison `a < b`: lexicographic by code point. -/
def charListLt : List Char → List Char → Bool
  | [], [] => false
  | [], _ :: _ => true
  | _ :: _, [] => false
  | a :: as, b :: bs => if a < b then true else if b < a then false else charListLt as bs

/-- Python string comparison `a <= b` (used by `sorted`). -/
def pyStrLe (a b : String) : Bool := ! charListLt b.data a.data

/-- Python `str.replace(old, new)` for one-character `old` and `new` (the
source only replaces `"-"`→`"_"` and `"_"`→`" "`). -/
def replaceChar (old new : Char) (s : String) : String :=
  String.mk (s.data.map (fun c => if c = old then new else c))

/-- Greedy `\s*`. -/
def skipWs0 (cs : List Char) : List Char := cs.dropWhile isPyWs

/-- Non-greedy capture `(.*?)lit` (DOTALL): the text before the first
occurrence of `lit`, together with the input after that occurrence. -/
def takeUntilLit (lit : List Char) : List Char → Option (List Char × List Char)
  | [] => (matchLit lit []).map (fun rest => (([] : List Char), rest))
  | c :: rest =>
    match matchLit lit (c :: rest) with
    | some after => some ([], after)
    | none => (takeUntilLit lit rest).map (fun pr => (c :: pr.1, pr.2))

/-- Model of `re.finditer`: try the matcher at each position, left to right; on a
match, emit it and continue after its end (matches never overlap).  Every
matcher below consumes at least one character on success, so fuel equal to
the input length never runs out before the input does. -/
def scanMatches {α : Type} (tryM : List Char → Option (α × List Char)) :
    Nat → List Char → List α
  | 0, _ => []
  | _, [] => []
  | Nat.succ fuel, c :: rest =>
    match tryM (c :: rest) with
    | some (a, remaining) => a :: scanMatches tryM fuel remaining
    | none => scanMatches tryM fuel rest

/-- Model of `re.finditer` of a `^`-anchored pattern under `re.MULTILINE`: the
matcher is tried at the start of the input and after every newline.  (For
the one pattern using this, `^require\s+(\S+)`, a later line start falling
inside an earlier match can never itself match, so trying every line start
independently coincides with `finditer`'s continue-after-match scan.) -/
def scanLineStarts {α : Type} (tryM : List Char → Option α) :
    Bool → List Char → List α
  | _, [] => []
  | atStart, c :: rest =>
    let here := if atStart then (tryM (c :: rest)).toList else []
    here ++ scanLineStarts tryM (c = '\n') rest

/-- Python `str.split()` with no argument: split on whitespace runs,
dropping empty pieces. -/
def pySplitWs (s : String) : List String :=
  (splitPredAux isPyWs s.data []).filter (fun piece => piece ≠ "")

/-- The character class `[>=<!\[\];@]` of the version-specifier split used
by the requirements.txt and pyproject.toml parsers. -/
def versionSplitChars : List Char := ['>', '=', '<', '!', '[', ']', ';', '@']

/-- Model of `re.split(r"[>=<!\[\];@]", s)[0]`: the prefix of `s` before the first
version-specifier character. -/
def splitVersionHead (s : String) : String :=
  String.mk (s.data.takeWhile (fun c => ¬ versionSplitChars.contains c))

/-- Python `s.rsplit(":", 1)[0]`: drop the suffix after the last colon (the
whole string when no colon occurs). -/
def pyRsplitColonHead (s : String) : String :=
  let parts := splitOnChar ':' s
  if parts.length ≥ 2 then String.intercalate ":" parts.dropLast else s

/-- Association lookup in a parsed JSON object (Python dict indexing /
`key in data`; keys of a `json.load` result are unique). -/
def jsonGet (kvs : List (String × Json)) (k : String) : Option Json :=
  kvs.lookup k

/-- Parser `_parse_package_json` (lines 68-80): read the file, `json.load` it, and
collect the keys of the `dependencies`, `devDependencies` and
`peerDependencies` members that are present and are objects.  A read
failure, a JSON parse failure, or a non-object document yields `[]` (in
Python the exception paths are caught and return `[]`; a non-dict document
either indexes a non-dict and raises — caught, `[]` — or matches no key and
falls through to the empty accumulator). -/
def parse_package_json (jsonLoad : String → Option Json)
    (fs : String → Option String) (path : String) : List String :=
  match fs path with
  | none => []
  | some content =>
    match jsonLoad content with
    | none => []
    | some (Json.obj kvs) =>
      ["dependencies", "devDependencies", "peerDependencies"].foldl
        (fun deps key =>
          match jsonGet kvs key with
          | some (Json.obj inner) => deps ++ inner.map (fun kv => kv.1)
          | _ => deps) []
    | some _ => []

/-- The per-line accumulation loop of `_parse_requirements_txt`, applied to
the lines the file iterator yielded: strip, skip blank lines and lines
starting with `#` or `-`, cut the version specifier, strip again, and keep
the lower-cased name when non-empty. -/
def requirementsDepsFrom (lines : List String) : List String :=
  lines.foldl
    (fun deps rawLine =>
      let line := pyStrip rawLine
      if line = "" || pyStartsWith line "#" || pyStartsWith line "-" then deps
      else
        let name := pyStrip (splitVersionHead line)
        if name = "" then deps else deps ++ [pyLower name]) []

/-- Parser `_parse_requirements_txt` (lines 83-98).  Unlike the other five
parsers it iterates the open file lazily (`for line in f`) with `deps`
accumulated outside the exception handler, so its read is NOT
all-or-nothing.  `fsLines path = none` models `open()` itself failing (the
caught exception leaves `deps = []`); `fsLines path = some (lines,
completed)` models an iteration that yielded `lines` and then either
reached end of file (`completed = true`) or raised a decode/read error
mid-iteration (`completed = false`) — the exception is swallowed and the
dependencies accumulated from the already-yielded lines are returned
either way. -/
def parse_requirements_txt (fsLines : String → Option (List String × Bool))
    (path : String) : List String :=
  match fsLines path with
  | none => []
  | some (lines, _) => requirementsDepsFrom lines

/-- Matcher for `dependencies\s*=\s*\[(.*?)\]` (DOTALL): the captured block
between the brackets, and the input after the closing bracket. -/
def tryDependenciesBlock (cs : List Char) : Option (List Char × List Char) := do
  let r1 ← matchLit "dependencies".data cs
  let r2 ← matchLit "=".data (skipWs0 r1)
  let r3 ← matchLit "[".data (skipWs0 r2)
  takeUntilLit "]".data r3

/-- Matcher for `"([^"]+)"`: a double-quoted non-empty capture. -/
def tryQuoted (cs : List Char) : Option (String × List Char) :=
  match cs with
  | '"' :: rest =>
    let cap := rest.takeWhile (fun c => c ≠ '"')
    if cap = [] then none
    else
      match rest.drop cap.length with
      | '"' :: after => some (String.mk cap, after)
      | _ => none
  | _ => none

/-- Parser `_parse_pyproject_toml` (lines 101-116): for every
`dependencies = [...]` block, for every double-quoted string in the block,
cut the version specifier, strip, and keep the lower-cased name when
non-empty.  A read failure yields `[]`. -/
def parse_pyproject_toml (fs : String → Option String) (path : String) :
    List String :=
  match fs path with
  | none => []
  | some content =>
    let cs := content.data
    (scanMatches tryDependenciesBlock cs.length cs).foldl
      (fun deps block =>
        (scanMatches tryQuoted block.length block).foldl
          (fun deps q =>
            let name := pyStrip (splitVersionHead q)
            if name = "" then deps else deps ++ [pyLower name]) deps) []

/-- Matcher for `require\s*\((.*?)\)` (DOTALL): the captured block between
the parentheses. -/
def tryRequireBlock (cs : List Char) : Option (List Char × List Char) := do
  let r1 ← matchLit "require".data cs
  let r2 ← matchLit "(".data (skipWs0 r1)
  takeUntilLit ")".data r2

/-- Matcher for the `require\s+(\S+)` tail of the MULTILINE pattern
`^require\s+(\S+)` (the `^` anchoring is handled by `scanLineStarts`). -/
def tryRequireSingle (cs : List Char) : Option String := do
  let r1 ← matchLit "require".data cs
  match r1 with
  | c :: rest =>
    if isPyWs c then
      let tok := (rest.dropWhile isPyWs).takeWhile (fun c => ¬ isPyWs c)
      if tok = [] then none else some (String.mk tok)
    else none
  | [] => none

/-- Parser `_parse_go_mod` (lines 119-137): module paths from every
`require (...)` block (first token of each non-comment line), then the
captures of the single-line `^require\s+(\S+)` matches.  A read failure
yields `[]`. -/
def parse_go_mod (fs : String → Option String) (path : String) : List String :=
  match fs path with
  | none => []
  | some content =>
    let cs := content.data
    let fromBlocks :=
      (scanMatches tryRequireBlock cs.length cs).foldl
        (fun deps block =>
          (splitOnChar '\n' (pyStrip (String.mk block))).foldl
            (fun deps line =>
              match pySplitWs (pyStrip line) with
              | [] => deps
              | tok :: _ =>
                if pyStartsWith tok "//" then deps else deps ++ [tok]) deps) []
    fromBlocks ++ scanLineStarts tryRequireSingle true cs

/-- Matcher for
`<dependency>\s*<groupId>(.*?)</groupId>\s*<artifactId>(.*?)</artifactId>`
(DOTALL), yielding `"groupId:artifactId"`. -/
def tryPomDependency (cs : List Char) : Option (String × List Char) := do
  let r1 ← matchLit "<dependency>".data cs
  let r2 ← matchLit "<groupId>".data (skipWs0 r1)
  let (g, r3) ← takeUntilLit "</groupId>".data r2
  let r4 ← matchLit "<artifactId>".data (skipWs0 r3)
  let (a, r5) ← takeUntilLit "</artifactId>".data r4
  some (String.mk g ++ ":" ++ String.mk a, r5)

/-- Parser `_parse_pom_xml` (lines 140-154): every `groupId:artifactId` pair found
by the tag regex.  A read failure yields `[]`. -/
def parse_pom_xml (fs : String → Option String) (path : String) : List String :=
  match fs path with
  | none => []
  | some content =>
    let cs := content.data
    scanMatches tryPomDependency cs.length cs

/-- Matcher for one alternative of
`(?:implementation|api|compile)\s+['"]([^'"]+)['"]`: the keyword, at least
one whitespace character, an opening quote (single or double), a non-empty
run of non-quote characters, and a closing quote (either kind, exactly as
the character class `['"]` allows). -/
def tryGradleKeyword (kw : String) (cs : List Char) :
    Option (String × List Char) := do
  let r1 ← matchLit kw.data cs
  match r1 with
  | c :: rest =>
    if isPyWs c then
      let r2 := rest.dropWhile isPyWs
      match r2 with
      | q :: r3 =>
        if q = '\'' || q = '"' then
          let cap := r3.takeWhile (fun c => c ≠ '\'' && c ≠ '"')
          if cap = [] then none
          else
            match r3.drop cap.length with
            | q2 :: r4 =>
              if q2 = '\'' || q2 = '"' then some (String.mk cap, r4) else none
            | [] => none
        else none
      | [] => none
    else none
  | [] => none

/-- The full gradle dependency matcher: the regex alternation tries
`implementation`, then `api`, then `compile` at the same position. -/
def tryGradleDependency (cs : List Char) : Option (String × List Char) :=
  (tryGradleKeyword "implementation" cs).orElse
    (fun _ => (tryGradleKeyword "api" cs).orElse
      (fun _ => tryGradleKeyword "compile" cs))

/-- Parser `_parse_build_gradle` (lines 157-168): every quoted dependency string
found by the call-site regex, with the trailing `:version` segment dropped
(`rsplit(":", 1)[0]`).  A read failure yields `[]`. -/
def parse_build_gradle (fs : String → Option String) (path : String) :
    List String :=
  match fs path with
  | none => []
  | some content =>
    let cs := content.data
    (scanMatches tryGradleDependency cs.length cs).map pyRsplitColonHead

-- ---------------------------------------------------------------------------
-- Import statement scanning: noise filter (repo_relations.py lines 209-409)
-- ---------------------------------------------------------------------------

/-- The tuple `_IMPORT_EXTENSIONS` (line 214). -/
def IMPORT_EXTENSIONS : List String :=
  [".py", ".js", ".ts", ".jsx", ".tsx", ".go", ".java"]

/-- The frozenset `_PYTHON_STDLIB` (lines 217-236); the frozenset is modelled as a list
used only through membership. -/
def PYTHON_STDLIB : List String :=
  ["os", "sys", "re", "json", "math", "time", "datetime", "collections",
   "functools", "itertools", "operator", "string", "textwrap", "unicodedata",
   "struct", "codecs", "io", "pathlib", "tempfile", "shutil", "glob",
   "fnmatch", "stat", "filecmp", "hashlib", "hmac", "secrets", "pickle",
   "shelve", "marshal", "dbm", "sqlite3", "csv", "configparser", "tomllib",
   "netrc", "plistlib", "typing", "dataclasses", "enum", "abc", "copy",
   "pprint", "reprlib", "numbers", "decimal", "fractions", "random",
   "statistics", "logging", "warnings", "traceback", "threading",
   "multiprocessing", "concurrent", "subprocess", "sched", "queue",
   "contextvars", "socket", "ssl", "select", "selectors", "signal",
   "asyncio", "http", "urllib", "email", "html", "xml", "webbrowser",
   "cgi", "wsgiref", "xmlrpc", "ftplib", "poplib", "imaplib", "smtplib",
   "uuid", "ctypes", "unittest", "doctest", "pdb", "profile", "timeit",
   "dis", "inspect", "importlib", "pkgutil", "zipimport", "compileall",
   "platform", "errno", "token", "tokenize", "ast", "symtable", "types",
   "builtins", "contextlib", "atexit", "gc", "site", "argparse",
   "getopt", "getpass", "curses", "readline", "rlcompleter",
   "__future__", "_thread"]

/-- The frozenset `_JS_COMMON_PACKAGES` (lines 238-255). -/
def JS_COMMON_PACKAGES : List String :=
  ["react", "react-dom", "next", "vue", "angular", "svelte",
   "express", "koa", "fastify", "hapi", "nest", "nestjs",
   "lodash", "underscore", "ramda", "moment", "dayjs", "date-fns",
   "axios", "node-fetch", "got", "superagent", "request",
   "webpack", "vite", "rollup", "esbuild", "parcel", "turbopack",
   "babel", "typescript", "ts-node", "tsx",
   "jest", "mocha", "chai", "vitest", "cypress", "playwright",
   "eslint", "prettier", "stylelint",
   "tailwindcss", "sass", "less", "postcss", "autoprefixer",
   "redux", "mobx", "zustand", "recoil", "jotai", "pinia", "vuex",
   "path", "fs", "url", "util", "crypto", "http", "https", "os",
   "stream", "events", "buffer", "child_process", "cluster", "net",
   "querystring", "zlib", "assert", "process",
   "dotenv", "cors", "helmet", "morgan", "body-parser", "cookie-parser",
   "jsonwebtoken", "bcrypt", "uuid", "chalk", "commander", "yargs",
   "winston", "pino", "debug"]

/-- The frozenset `_GO_STDLIB` (lines 257-268). -/
def GO_STDLIB : List String :=
  ["fmt", "os", "io", "log", "net", "sync", "time", "math", "sort",
   "strings", "strconv", "bytes", "bufio", "errors", "context",
   "encoding", "encoding/json", "encoding/xml", "encoding/csv",
   "encoding/base64", "encoding/binary", "encoding/hex",
   "net/http", "net/url", "net/smtp", "net/rpc",
   "io/ioutil", "io/fs", "os/exec", "os/signal",
   "path", "path/filepath", "regexp", "reflect", "runtime",
   "crypto", "crypto/sha256", "crypto/md5", "crypto/tls",
   "database/sql", "flag", "testing", "embed", "html", "html/template",
   "text/template", "archive", "compress"]

/-- The prefix tuple `_JAVA_STDLIB_PREFIXES` (lines 270-275). -/
def JAVA_STDLIB_PREFIXES : List String :=
  ["java.", "javax.", "jakarta.",
   "org.springframework", "org.apache.commons", "org.junit",
   "org.slf4j", "org.mockito", "com.google.common", "com.fasterxml",
   "org.hibernate", "org.gradle", "org.jetbrains"]

/-- The inline prefix tuple of the Go branch of `_filter_imports`
(lines 371-373). -/
def GO_FILTER_PREFIXES : List String :=
  ["fmt", "net/", "os/", "io/", "encoding/", "crypto/", "archive/",
   "compress/", "database/", "html/", "text/"]

/-- Python `i.lower().split("/")[-1]`. -/
def lowerLastSegment (i : String) : String :=
  (splitOnChar '/' (pyLower i)).getLastD (pyLower i)

/-- Filter `_filter_imports` (lines 362-377): remove stdlib and well-known public
packages from an import set (the Python set is modelled as a list; the set
comprehensions become filters). -/
def filter_imports (imports : List String) (ext : String) : List String :=
  if ext = ".py" then
    imports.filter (fun i => ¬ PYTHON_STDLIB.contains i)
  else if ext = ".js" || ext = ".ts" || ext = ".jsx" || ext = ".tsx" then
    imports.filter (fun i =>
      ¬ JS_COMMON_PACKAGES.contains (lowerLastSegment i)
        && ¬ JS_COMMON_PACKAGES.contains (pyLower i))
  else if ext = ".go" then
    imports.filter (fun i =>
      ¬ GO_STDLIB.contains i
        && ¬ GO_FILTER_PREFIXES.any (fun p => pyStartsWith i p))
  else if ext = ".java" then
    imports.filter (fun i =>
      ¬ JAVA_STDLIB_PREFIXES.any (fun p => pyStartsWith i p))
  else imports

/-- The fixed per-language noise vocabulary the specification speaks about:
the Python stdlib set, the JS common-package set, the Go stdlib set and the
Go filter prefixes, and the Java stdlib prefixes. -/
def belongsToNoiseVocabulary (ext name : String) : Bool :=
  if ext = ".py" then PYTHON_STDLIB.contains name
  else if ext = ".js" || ext = ".ts" || ext = ".jsx" || ext = ".tsx" then
    JS_COMMON_PACKAGES.contains name
  else if ext = ".go" then
    GO_STDLIB.contains name || GO_FILTER_PREFIXES.any (fun p => pyStartsWith name p)
  else if ext = ".java" then
    JAVA_STDLIB_PREFIXES.any (fun p => pyStartsWith name p)
  else false

-- ---------------------------------------------------------------------------
-- Import-based LLM relation analysis: post-validation
-- (repo_relations.py lines 498-519)
-- ---------------------------------------------------------------------------

/-- The validation-and-mapping loop of `_analyze_import_relations` over one
batch's parsed model response (lines 502-519).  `items` is the parsed JSON
array (the surrounding code skips the batch unless `json.loads` returned a
list); `validPaths` is `{info["path"] for info in repos_info_list}`;
`pyStr` models Python `str()` as used by the f-string for a non-string
`description` value (a string renders as itself, a missing key as `""`).

An element is kept only if it is a dict whose `from` and `to` are members
of the valid path set (hence strings), whose `from != to`, and whose
`confidence` equals `"high"` or `"medium"` (tuple membership by equality,
hence a string); `confidence == "high"` maps to edge type `depends_on`,
otherwise (`"medium"`) to `likely_depends_on`. -/
def validate_import_relations (validPaths : List String) (pyStr : Json → String)
    (items : List Json) : List Edge :=
  items.foldl
    (fun all_edges rel =>
      match rel with
      | Json.obj kvs =>
        match jsonGet kvs "from", jsonGet kvs "to", jsonGet kvs "confidence" with
        | some (Json.str f), some (Json.str t), some (Json.str conf) =>
          if validPaths.contains f && validPaths.contains t && f ≠ t
              && (conf = "high" || conf = "medium") then
            let edge_type := if conf = "high" then "depends_on" else "likely_depends_on"
            let desc :=
              match jsonGet kvs "description" with
              | none => ""
              | some (Json.str s) => s
              | some j => pyStr j
            all_edges ++
              [{ src := f, dst := t, type := edge_type,
                 description := "Import analysis: " ++ desc,
                 confidence := some conf }]
          else all_edges
        | _, _, _ => all_edges
      | _ => all_edges) []

-- ---------------------------------------------------------------------------
-- Dependency matching across indexed repos (repo_relations.py lines 560-589)
-- ---------------------------------------------------------------------------

/-- Python truthy-`or` over `name_to_path.get(...)` results: the first
operand unless it is `None` or the empty string. -/
def pyOrStr (a b : Option String) : Option String :=
  match a with
  | some s => if s = "" then b else some s
  | none => b

/-- The `name_to_path` lookup dict of `_match_dependencies_to_repos`
(lines 566-574): for each path of `all_repos` (in iteration order), insert
the lower-cased last path segment and its hyphen→underscore normalization,
later insertions overwriting earlier ones. -/
def buildNameToPath (paths : List String) : String → Option String :=
  paths.foldl
    (fun m path =>
      let short_name := pyLower ((splitOnChar '/' path).getLastD path)
      let normalized := replaceChar '-' '_' short_name
      fun k =>
        if k = normalized then some path
        else if k = short_name then some path
        else m k)
    (fun _ => none)

/-- Matcher `_match_dependencies_to_repos` (lines 560-589): for every repository
and every declared dependency, normalize the dependency name (lower case,
last `/`-segment, hyphen→underscore variant) and look it up; a truthy hit
different from the repository itself becomes a `depends_on` edge with
description `"Code dependency: <name>"`.  `all_repos` is iterated only for
its keys and is modelled by the path list `paths`. -/
def match_dependencies_to_repos (paths : List String)
    (repo_deps : List (String × List String)) : List Edge :=
  let name_to_path := buildNameToPath paths
  repo_deps.foldl
    (fun edges entry =>
      entry.2.foldl
        (fun edges dep =>
          let dep_lower := (splitOnChar '/' (pyLower dep)).getLastD (pyLower dep)
          let dep_normalized := replaceChar '-' '_' dep_lower
          match pyOrStr (name_to_path dep_lower) (name_to_path dep_normalized) with
          | some matched_path =>
            if matched_path ≠ "" && matched_path ≠ entry.1 then
              edges ++
                [{ src := entry.1, dst := matched_path, type := "depends_on",
                   description := "Code dependency: " ++ dep,
                   confidence := none }]
            else edges
          | none => edges)
        edges)
    []

-- ---------------------------------------------------------------------------
-- Persistence helpers (repo_relations.py lines 38-57, 865-869)
-- ---------------------------------------------------------------------------

/-- The empty relations structure
`{"analyzed_at": None, "repos": {}, "edges": []}` as a JSON document. -/
def emptyRelationsJson : Json :=
  Json.obj [("analyzed_at", Json.null), ("repos", Json.obj []),
            ("edges", Json.arr [])]

/-- Loader `load_relations` (lines 38-48): the persisted document when the file
exists and parses, the empty structure otherwise.  `fileContent` is the
current content of `RELATIONS_FILE` (`none` = the file does not exist or
reading it fails); `jsonLoad` models `json.load` (`none` = the parse
raises, which the function catches). -/
def load_relations (fileContent : Option String)
    (jsonLoad : String → Option Json) : Json :=
  match fileContent with
  | none => emptyRelationsJson
  | some content =>
    match jsonLoad content with
    | none => emptyRelationsJson
    | some j => j

/-- The empty relations structure, as the structured graph the engine
itself persists (`save_relations` only ever writes documents of the
`RelGraph` shape). -/
def emptyRelGraph : RelGraph :=
  { analyzed_at := none, repos := [], edges := [] }

/-- Lookup `get_related_repos` (lines 865-869) over the loaded graph:
`data.get("repos", {}).get(repo_path, {}).get("related", [])` — a missing
repository entry defaults to the empty dict, whose `related` defaults to
the empty list. -/
def get_related_repos (data : RelGraph) (repo_path : String) : List String :=
  match data.repos.lookup repo_path with
  | some info => info.related
  | none => []

-- ---------------------------------------------------------------------------
-- Main analysis orchestrator (repo_relations.py lines 692-862)
-- ---------------------------------------------------------------------------

/-- The observable process state of the orchestrator: the module-global
`_analysis_status` dict and the persisted relations file (`none` = no
successful run has persisted a graph yet). -/
structure SysState where
  status : AnalysisStatus
  persisted : Option RelGraph
deriving DecidableEq, Repr

/-- How a call to `analyze_all_relations` can fail: the immediate
`RuntimeError("Analysis already in progress")` conflict guard, or an
unhandled exception re-raised out of the run body. -/
inductive RunFailure where
  | conflict : RunFailure
  | exn (msg : String) : RunFailure
deriving DecidableEq, Repr

/-- Orchestrator `analyze_all_relations` (lines 703-862), with the run body (lines
722-851: registry enumeration, scanning, the three evidence layers and the
merge) abstracted as `body`: from the status set at run start, the body
either returns the result graph to persist (both `return` statements save
it first) or raises an unhandled exception, having updated the progress
string along the way.

The wrapper is the part under verification here: the conflict guard
(`if _analysis_status["running"]: raise RuntimeError(...)`), the status
reset at run start, the `except` clause recording `str(e)` and re-raising,
and the `finally` clause clearing `running`.  `save_relations` runs only
when the body returns. -/
def analyze_all_relations
    (body : AnalysisStatus → AnalysisStatus × Except String RelGraph)
    (s : SysState) : Except RunFailure RelGraph × SysState :=
  if s.status.running then (Except.error RunFailure.conflict, s)
  else
    let st0 : AnalysisStatus :=
      { running := true, progress := "Starting analysis...", error := none }
    match body st0 with
    | (st1, Except.ok result) =>
      (Except.ok result,
       { status := { st1 with running := false }, persisted := some result })
    | (st1, Except.error e) =>
      (Except.error (RunFailure.exn e),
       { status := { st1 with error := some e, running := false },
         persisted := s.persisted })

-- ---------------------------------------------------------------------------
-- Mermaid graph renderer (repo_relations.py lines 872-916)
-- ---------------------------------------------------------------------------

/-- The distinct endpoints of the edge list in Python's `sorted(set(...))`
order: deduplicated, then sorted lexicographically. -/
def sortedNodes (edges : List Edge) : List String :=
  ((edges.foldr (fun e acc => e.src :: e.dst :: acc) []).dedup).insertionSort
    (fun a b => pyStrLe a b = true)

/-- The enumeration `for i, node in enumerate(sorted(nodes)): node_ids[node] = f"N{i}"`,
as the association list of (node, id) pairs starting at index `i`. -/
def nodeIdPairsFrom (i : Nat) : List String → List (String × String)
  | [] => []
  | n :: rest => (n, "N" ++ Nat.repr i) :: nodeIdPairsFrom (i + 1) rest

/-- The `node_ids` mapping of `generate_mermaid_graph`. -/
def nodeIdPairs (edges : List Edge) : List (String × String) :=
  nodeIdPairsFrom 0 (sortedNodes edges)

/-- The `edge_styles` dict with its `.get(type, "-->")` default
(lines 898-906, 912). -/
def edgeStyleOf (t : String) : String :=
  if t = "depends_on" then "-->"
  else if t = "likely_depends_on" then "-.->"
  else if t = "provides_api_for" then "-.->"
  else if t = "shares_protocol" then "<-->"
  else if t = "upstream" then "-->"
  else if t = "downstream" then "-->"
  else if t = "related" then "---"
  else "-->"

/-- Renderer `generate_mermaid_graph` (lines 872-916) on explicit relations data
(the `data is None → load_relations()` convenience default is outside the
pure renderer).  Empty edge list: the fixed placeholder diagram.  Otherwise
one `graph LR` header, one node-declaration line per distinct endpoint in
sorted order, and one edge line per input edge whose endpoint ids are
non-empty (`node_ids.get(..., "")` — always true since every endpoint was
enumerated). -/
def generate_mermaid_graph (edges : List Edge) : String :=
  if edges.isEmpty then "graph LR\n  A[No relationships found]"
  else
    let pairs := nodeIdPairs edges
    let nodeLines := pairs.map
      (fun p => "  " ++ p.2 ++ "[\"" ++ (splitOnChar '/' p.1).getLastD p.1 ++ "\"]")
    let edgeLines := edges.foldl
      (fun lines e =>
        let src_id := (pairs.lookup e.src).getD ""
        let dst_id := (pairs.lookup e.dst).getD ""
        if src_id ≠ "" && dst_id ≠ "" then
          lines ++ ["  " ++ src_id ++ " " ++ edgeStyleOf e.type ++ "|"
            ++ replaceChar '_' ' ' e.type ++ "| " ++ dst_id]
        else lines) []
    String.intercalate "\n" (["graph LR"] ++ nodeLines ++ edgeLines)

/-- Folding `mergeStep` keeps, for every ordered `(from, to)` pair not yet
seen, exactly the first edge of the input carrying that pair. -/
theorem foldl_mergeStep_filter (L : List Edge) (seen : List (String × String))
    (acc : List Edge) (p : String × String) :
    ((L.foldl mergeStep (seen, acc)).2).filter (fun e => (e.src, e.dst) = p) =
      acc.filter (fun e => (e.src, e.dst) = p) ++
        (if p ∈ seen then [] else (L.find? (fun e => (e.src, e.dst) = p)).toList) := by
  induction L generalizing seen acc with
  | nil => simp
  | cons e rest ih =>
    by_cases hmem : (e.src, e.dst) ∈ seen
    · rw [List.foldl_cons, mergeStep, if_pos hmem, ih]
      by_cases hp : p ∈ seen
      · simp [hp]
      · have hne : ¬ ((e.src, e.dst) = p) := fun h => hp (h ▸ hmem)
        simp [hp, List.find?_cons, hne]
    · rw [List.foldl_cons, mergeStep, if_neg hmem, ih]
      by_cases hep : (e.src, e.dst) = p
      · have hpseen : ¬ p ∈ seen := fun h => hmem (hep ▸ h)
        have hpcons : p ∈ (e.src, e.dst) :: seen := by
          simp [hep]
        simp [List.filter_append, hep, hpseen, hpcons, List.find?_cons]
      · have hiff : p ∈ (e.src, e.dst) :: seen ↔ p ∈ seen := by
          constructor
          · intro h
            rcases List.mem_cons.mp h with h | h
            · exact absurd h.symm hep
            · exact h
          · exact fun h => List.mem_cons_of_mem _ h
        by_cases hp : p ∈ seen
        · simp [List.filter_append, hep, hp, hiff]
        · simp [List.filter_append, hep, hp, hiff, List.find?_cons]

/-- C1 (amended): the merge step of `analyze_all_relations` deduplicates by
the ORDERED `(from, to)` pair: for every ordered pair `p`, the merged edge
list restricted to edges carrying `p` is exactly the first edge carrying
`p` in the priority-ordered concatenation of the layers (code-dependency,
then import high confidence, then import medium confidence, then
semantic); in particular at most one edge per ordered pair survives, and
the highest-priority layer proposing that ordered pair wins. -/
theorem merge_ordered_pair_priority
    (code_edges import_edges semantic_edges : List Edge) (p : String × String) :
    (mergeEdges code_edges import_edges semantic_edges).filter
        (fun e => (e.src, e.dst) = p) =
      ((priorityList code_edges import_edges semantic_edges).find?
        (fun e => (e.src, e.dst) = p)).toList
    ∧ ((mergeEdges code_edges import_edges semantic_edges).filter
        (fun e => (e.src, e.dst) = p)).length ≤ 1 := by
  have hfold :
      mergeEdges code_edges import_edges semantic_edges =
        ((priorityList code_edges import_edges semantic_edges).foldl
          mergeStep ([], [])).2 := by
    simp [mergeEdges, priorityList, List.foldl_append]
  have hmain :
      (mergeEdges code_edges import_edges semantic_edges).filter
          (fun e => (e.src, e.dst) = p) =
        ((priorityList code_edges import_edges semantic_edges).find?
          (fun e => (e.src, e.dst) = p)).toList := by
    rw [hfold]
    have h := foldl_mergeStep_filter
      (priorityList code_edges import_edges semantic_edges) [] [] p
    simpa using h
  refine ⟨hmain, ?_⟩
  rw [hmain]
  cases (priorityList code_edges import_edges semantic_edges).find?
      (fun e => (e.src, e.dst) = p) <;> simp

/-- C1 (counterexample to the claim as stated): merging keys the seen-set
on ordered pairs, so a layer-1 edge `a/x → a/y` and a layer-3 edge
`a/y → a/x` both survive: the merged list contains two edges whose
endpoints are the unordered pair (a/x, a/y) of distinct paths, and the
low-priority semantic edge is among them. -/
theorem merge_unordered_pair_counterexample :
    ("a/x" : String) ≠ "a/y"
    ∧ ((mergeEdges
          [{ src := "a/x", dst := "a/y", type := "depends_on",
             description := "Code dependency: y", confidence := none }]
          []
          [{ src := "a/y", dst := "a/x", type := "related",
             description := "semantic guess", confidence := none }]).filter
        (fun e =>
          (e.src = "a/x" && e.dst = "a/y") || (e.src = "a/y" && e.dst = "a/x"))).length = 2
    ∧ ({ src := "a/y", dst := "a/x", type := "related",
         description := "semantic guess", confidence := none } : Edge)
        ∈ mergeEdges
          [{ src := "a/x", dst := "a/y", type := "depends_on",
             description := "Code dependency: y", confidence := none }]
          []
          [{ src := "a/y", dst := "a/x", type := "related",
             description := "semantic guess", confidence := none }] := by
  refine ⟨by decide, by decide, by decide⟩

/-- C2: when the run body of `analyze_all_relations` raises an unhandled
exception `e`, the call re-raises it, the analysis status records the error
string with the running flag reset to false (the `except`/`finally`
clauses), and the persisted graph is exactly the one from before the call
— `save_relations` runs only on the success paths. -/
theorem analyze_failure_cleanup (s : SysState)
    (body : AnalysisStatus → AnalysisStatus × Except String RelGraph)
    (st1 : AnalysisStatus) (e : String)
    (hidle : s.status.running = false)
    (hbody : body { running := true, progress := "Starting analysis...",
                    error := none } = (st1, Except.error e)) :
    analyze_all_relations body s =
      (Except.error (RunFailure.exn e),
       { status := { running := false, progress := st1.progress, error := some e },
         persisted := s.persisted }) := by
  unfold analyze_all_relations
  rw [hidle]
  simp [hbody]

/-- C2 witness: a concrete idle state holding a previously persisted graph,
and a body that fails; the status records the error, running is false, and
the persisted graph survives. -/
theorem analyze_failure_cleanup_witness :
    analyze_all_relations (fun st => (st, Except.error "boom"))
        { status := { running := false, progress := "", error := none },
          persisted := some { analyzed_at := some "2024-01-01T00:00:00Z",
                              repos := [], edges := [] } } =
      (Except.error (RunFailure.exn "boom"),
       { status := { running := false, progress := "Starting analysis...",
                     error := some "boom" },
         persisted := some { analyzed_at := some "2024-01-01T00:00:00Z",
                             repos := [], edges := [] } }) :=
  analyze_failure_cleanup _ _ _ _ rfl rfl

/-- C3: a call to `analyze_all_relations` while the status has
`running = true` fails immediately with the conflict error and changes
nothing: the returned state is the input state, for every possible run
body (so no scan, no status mutation and no touch of the persisted graph
happens). -/
theorem analyze_conflict_guard (s : SysState)
    (body : AnalysisStatus → AnalysisStatus × Except String RelGraph)
    (hbusy : s.status.running = true) :
    analyze_all_relations body s = (Except.error RunFailure.conflict, s) := by
  unfold analyze_all_relations
  rw [hbusy]
  simp

/-- C3 witness: a second call while a run is in flight observes the
conflict and leaves the state untouched, even though its body would have
succeeded. -/
theorem analyze_conflict_guard_witness :
    analyze_all_relations
        (fun st => (st, Except.ok emptyRelGraph))
        { status := { running := true, progress := "Scanning 3 repositories...",
                      error := none },
          persisted := none } =
      (Except.error RunFailure.conflict,
       { status := { running := true, progress := "Scanning 3 repositories...",
                     error := none },
         persisted := none }) :=
  analyze_conflict_guard _ _ rfl

/-- Every entry of the JS common-package vocabulary is already
lower-cased, so `i.lower() not in _JS_COMMON_PACKAGES` rules out literal
membership of `i` as well. -/
theorem js_common_packages_lower_fixed :
    ∀ s ∈ JS_COMMON_PACKAGES, pyLower s = s := by decide

/-- C4: for every supported source extension, the per-language filter of
the import scan never outputs a name of that language's fixed noise
vocabulary (Python stdlib set, JS common-package set, Go stdlib set and
filter prefixes, Java stdlib prefixes): filtered set ∩ noise vocabulary
is empty. -/
theorem filter_imports_noise_disjoint (ext name : String) (imports : List String)
    (hext : ext ∈ IMPORT_EXTENSIONS)
    (hname : name ∈ filter_imports imports ext) :
    belongsToNoiseVocabulary ext name = false := by
  fin_cases hext
  · -- ".py"
    simp [filter_imports] at hname
    simp [belongsToNoiseVocabulary]
    exact hname.2
  · -- ".js"
    simp [filter_imports] at hname
    simp [belongsToNoiseVocabulary]
    intro hc
    exact hname.2.2 (by rwa [js_common_packages_lower_fixed name hc])
  · -- ".ts"
    simp [filter_imports] at hname
    simp [belongsToNoiseVocabulary]
    intro hc
    exact hname.2.2 (by rwa [js_common_packages_lower_fixed name hc])
  · -- ".jsx"
    simp [filter_imports] at hname
    simp [belongsToNoiseVocabulary]
    intro hc
    exact hname.2.2 (by rwa [js_common_packages_lower_fixed name hc])
  · -- ".tsx"
    simp [filter_imports] at hname
    simp [belongsToNoiseVocabulary]
    intro hc
    exact hname.2.2 (by rwa [js_common_packages_lower_fixed name hc])
  · -- ".go"
    simp [filter_imports] at hname
    simp [belongsToNoiseVocabulary]
    exact ⟨hname.2.1, hname.2.2⟩
  · -- ".java"
    simp [filter_imports] at hname
    simp [belongsToNoiseVocabulary]
    exact hname.2

/-- C4 witness: `.py` is a supported extension, `numpy` survives the
filter on the import set (numpy, os), and `numpy` is not noise. -/
theorem filter_imports_noise_disjoint_witness :
    ".py" ∈ IMPORT_EXTENSIONS
    ∧ "numpy" ∈ filter_imports ["numpy", "os"] ".py"
    ∧ belongsToNoiseVocabulary ".py" "numpy" = false :=
  ⟨by decide, by decide,
   filter_imports_noise_disjoint ".py" "numpy" ["numpy", "os"]
     (by decide) (by decide)⟩

/-- C5 (amended): every manifest parser is a total function — no exception
propagates, so one malformed manifest never aborts the surrounding
dependency scan — and a parse or I/O failure yields exactly the
dependencies accumulated before the failure point.  For the five
whole-file parsers (package.json, pyproject.toml, go.mod, pom.xml,
build.gradle) nothing is accumulated before `json.load`/`f.read()`
completes, so a read failure — and, for package.json, a JSON parse
failure — yields the empty list.  For requirements.txt, which iterates
the file lazily, an open failure yields the empty list, while a failure
swallowed mid-iteration returns the dependencies of the lines already
yielded — possibly a non-empty prefix, identical to what a successful
read of just those lines would produce. -/
theorem manifest_parsers_fail_safe (fs : String → Option String)
    (jsonLoad : String → Option Json)
    (fsLines : String → Option (List String × Bool)) (p : String) :
    (fs p = none →
      parse_package_json jsonLoad fs p = []
      ∧ parse_pyproject_toml fs p = []
      ∧ parse_go_mod fs p = []
      ∧ parse_pom_xml fs p = []
      ∧ parse_build_gradle fs p = [])
    ∧ (∀ c, fs p = some c → jsonLoad c = none →
        parse_package_json jsonLoad fs p = [])
    ∧ (fsLines p = none → parse_requirements_txt fsLines p = [])
    ∧ (∀ lines completed, fsLines p = some (lines, completed) →
        parse_requirements_txt fsLines p = requirementsDepsFrom lines) := by
  refine ⟨?_, ?_, ?_, ?_⟩
  · intro h
    refine ⟨?_, ?_, ?_, ?_, ?_⟩ <;>
      simp [parse_package_json, parse_pyproject_toml, parse_go_mod,
        parse_pom_xml, parse_build_gradle, h]
  · intro c hc hl
    simp [parse_package_json, hc, hl]
  · intro h
    simp [parse_requirements_txt, h]
  · intro lines completed h
    simp [parse_requirements_txt, h]

/-- C5 (counterexample to the claim as stated): `_parse_requirements_txt`
accumulates `deps` across the lazy file iteration, so a decode/read
failure swallowed after the line `requests==2.0` was processed returns
the non-empty partial list `[requests]` — not the empty list the claim
demands of every parse or I/O failure. -/
theorem requirements_partial_prefix_counterexample :
    parse_requirements_txt (fun _ => some (["requests==2.0"], false))
        "/r/requirements.txt" = ["requests"]
    ∧ (["requests"] : List String) ≠ [] :=
  ⟨by decide, by decide⟩

/-- C5 witness: on a missing file every parser returns `[]`; on a file
whose content is not valid JSON the package.json parser returns `[]`; and
a requirements.txt read that fails after yielding a comment line and
`flask>=2.0` returns exactly the accumulation over those two lines. -/
theorem manifest_parsers_fail_safe_witness :
    parse_package_json (fun _ => none) (fun _ => none) "/r/package.json" = []
    ∧ parse_pyproject_toml (fun _ => none) "/r/pyproject.toml" = []
    ∧ parse_go_mod (fun _ => none) "/r/go.mod" = []
    ∧ parse_pom_xml (fun _ => none) "/r/pom.xml" = []
    ∧ parse_build_gradle (fun _ => none) "/r/build.gradle" = []
    ∧ parse_package_json (fun _ => none) (fun _ => some "not valid json")
        "/r/package.json" = []
    ∧ parse_requirements_txt (fun _ => none) "/r/requirements.txt" = []
    ∧ parse_requirements_txt
        (fun _ => some (["# pinned", "flask>=2.0"], false))
        "/r/requirements.txt"
      = requirementsDepsFrom ["# pinned", "flask>=2.0"] := by
  refine ⟨?_, ?_, ?_, ?_, ?_, ?_, ?_, ?_⟩
  · exact ((manifest_parsers_fail_safe (fun _ => none) (fun _ => none)
      (fun _ => none) "/r/package.json").1 rfl).1
  · exact ((manifest_parsers_fail_safe (fun _ => none) (fun _ => none)
      (fun _ => none) "/r/pyproject.toml").1 rfl).2.1
  · exact ((manifest_parsers_fail_safe (fun _ => none) (fun _ => none)
      (fun _ => none) "/r/go.mod").1 rfl).2.2.1
  · exact ((manifest_parsers_fail_safe (fun _ => none) (fun _ => none)
      (fun _ => none) "/r/pom.xml").1 rfl).2.2.2.1
  · exact ((manifest_parsers_fail_safe (fun _ => none) (fun _ => none)
      (fun _ => none) "/r/build.gradle").1 rfl).2.2.2.2
  · exact (manifest_parsers_fail_safe (fun _ => some "not valid json")
      (fun _ => none) (fun _ => none) "/r/package.json").2.1
      "not valid json" rfl rfl
  · exact (manifest_parsers_fail_safe (fun _ => none) (fun _ => none)
      (fun _ => none) "/r/requirements.txt").2.2.1 rfl
  · exact (manifest_parsers_fail_safe (fun _ => none) (fun _ => none)
      (fun _ => some (["# pinned", "flask>=2.0"], false))
      "/r/requirements.txt").2.2.2 ["# pinned", "flask>=2.0"] false rfl

/-- Helper for C6: any edge the validation fold adds to the accumulator
satisfies the post-validation conditions. -/
theorem validate_fold_sound (validPaths : List String) (pyStr : Json → String)
    (e : Edge) :
    ∀ (items : List Json) (acc : List Edge),
      e ∈ items.foldl
        (fun all_edges rel =>
          match rel with
          | Json.obj kvs =>
            match jsonGet kvs "from", jsonGet kvs "to", jsonGet kvs "confidence" with
            | some (Json.str f), some (Json.str t), some (Json.str conf) =>
              if validPaths.contains f && validPaths.contains t && f ≠ t
                  && (conf = "high" || conf = "medium") then
                let edge_type := if conf = "high" then "depends_on" else "likely_depends_on"
                let desc :=
                  match jsonGet kvs "description" with
                  | none => ""
                  | some (Json.str s) => s
                  | some j => pyStr j
                all_edges ++
                  [{ src := f, dst := t, type := edge_type,
                     description := "Import analysis: " ++ desc,
                     confidence := some conf }]
              else all_edges
            | _, _, _ => all_edges
          | _ => all_edges) acc →
      e ∈ acc
      ∨ (e.src ∈ validPaths ∧ e.dst ∈ validPaths ∧ e.src ≠ e.dst
         ∧ (e.confidence = some "high" ∨ e.confidence = some "medium")
         ∧ (e.confidence = some "high" → e.type = "depends_on")
         ∧ (e.confidence = some "medium" → e.type = "likely_depends_on")) := by
  intro items
  induction items with
  | nil =>
    intro acc h
    exact Or.inl (by simpa using h)
  | cons rel rest ih =>
    intro acc h
    rw [List.foldl_cons] at h
    rcases ih _ h with hmem | hP
    · revert hmem
      split
      · split
        · intro hmem
          split_ifs at hmem with hcond hconf
          · -- guard holds and confidence is "high"
            simp only [List.mem_append, List.mem_singleton] at hmem
            rcases hmem with hacc | hone
            · exact Or.inl hacc
            · subst hone
              simp only [Bool.and_eq_true, Bool.or_eq_true,
                decide_eq_true_eq] at hcond
              refine Or.inr ⟨by simpa using hcond.1.1.1,
                by simpa using hcond.1.1.2, hcond.1.2,
                Or.inl (by simp [hconf]), fun _ => rfl, ?_⟩
              intro hc
              simp [hconf] at hc
          · -- guard holds and confidence is "medium"
            simp only [List.mem_append, List.mem_singleton] at hmem
            rcases hmem with hacc | hone
            · exact Or.inl hacc
            · subst hone
              simp only [Bool.and_eq_true, Bool.or_eq_true,
                decide_eq_true_eq] at hcond
              have hmed := hcond.2.resolve_left hconf
              refine Or.inr ⟨by simpa using hcond.1.1.1,
                by simpa using hcond.1.1.2, hcond.1.2,
                Or.inr (by simp [hmed]), ?_, fun _ => rfl⟩
              intro hc
              simp [hmed] at hc
          · exact Or.inl hmem
        · intro hmem
          exact Or.inl hmem
      · intro hmem
        exact Or.inl hmem
    · exact Or.inr hP

/-- C6: every edge kept by the import-based matcher's post-validation has
known repository paths as endpoints, is not self-referential, carries
confidence `high` or `medium`, and its relationship kind is `depends_on`
exactly for `high` and `likely_depends_on` exactly for `medium`; response
elements violating these conditions contribute no edge. -/
theorem import_relations_validated (validPaths : List String)
    (pyStr : Json → String) (items : List Json) (e : Edge)
    (he : e ∈ validate_import_relations validPaths pyStr items) :
    e.src ∈ validPaths ∧ e.dst ∈ validPaths ∧ e.src ≠ e.dst
    ∧ (e.confidence = some "high" ∨ e.confidence = some "medium")
    ∧ (e.confidence = some "high" → e.type = "depends_on")
    ∧ (e.confidence = some "medium" → e.type = "likely_depends_on") := by
  rcases validate_fold_sound validPaths pyStr e items [] he with h | h
  · simp at h
  · exact h

/-- C6 witness: a concrete medium-confidence response element passes
validation and maps to `likely_depends_on`. -/
theorem import_relations_validated_witness :
    ({ src := "o/a", dst := "o/b", type := "likely_depends_on",
       description := "Import analysis: imports b.client",
       confidence := some "medium" } : Edge)
      ∈ validate_import_relations ["o/a", "o/b"] (fun _ => "")
        [Json.obj [("from", Json.str "o/a"), ("to", Json.str "o/b"),
                   ("confidence", Json.str "medium"),
                   ("description", Json.str "imports b.client")]]
    ∧ ("o/a" : String) ∈ ["o/a", "o/b"]
    ∧ ("o/b" : String) ∈ ["o/a", "o/b"]
    ∧ ("o/a" : String) ≠ "o/b" :=
  ⟨by decide,
   (import_relations_validated ["o/a", "o/b"] (fun _ => "")
      [Json.obj [("from", Json.str "o/a"), ("to", Json.str "o/b"),
                 ("confidence", Json.str "medium"),
                 ("description", Json.str "imports b.client")]]
      { src := "o/a", dst := "o/b", type := "likely_depends_on",
        description := "Import analysis: imports b.client",
        confidence := some "medium" } (by decide)).1,
   (import_relations_validated ["o/a", "o/b"] (fun _ => "")
      [Json.obj [("from", Json.str "o/a"), ("to", Json.str "o/b"),
                 ("confidence", Json.str "medium"),
                 ("description", Json.str "imports b.client")]]
      { src := "o/a", dst := "o/b", type := "likely_depends_on",
        description := "Import analysis: imports b.client",
        confidence := some "medium" } (by decide)).2.1,
   (import_relations_validated ["o/a", "o/b"] (fun _ => "")
      [Json.obj [("from", Json.str "o/a"), ("to", Json.str "o/b"),
                 ("confidence", Json.str "medium"),
                 ("description", Json.str "imports b.client")]]
      { src := "o/a", dst := "o/b", type := "likely_depends_on",
        description := "Import analysis: imports b.client",
        confidence := some "medium" } (by decide)).2.2.1⟩

/-- Helper for C7: any edge the per-dependency loop adds for a repository
`rp` has source `rp`, a destination different from `rp`, kind `depends_on`,
and a description naming one of the declared dependencies. -/
theorem dep_fold_sound (m : String → Option String) (rp : String)
    (deps : List String) (e : Edge) :
    ∀ (acc : List Edge),
      e ∈ deps.foldl
        (fun edges dep =>
          let dep_lower := (splitOnChar '/' (pyLower dep)).getLastD (pyLower dep)
          let dep_normalized := replaceChar '-' '_' dep_lower
          match pyOrStr (m dep_lower) (m dep_normalized) with
          | some matched_path =>
            if matched_path ≠ "" && matched_path ≠ rp then
              edges ++
                [{ src := rp, dst := matched_path, type := "depends_on",
                   description := "Code dependency: " ++ dep,
                   confidence := none }]
            else edges
          | none => edges) acc →
      e ∈ acc
      ∨ (e.src = rp ∧ e.src ≠ e.dst ∧ e.type = "depends_on"
         ∧ ∃ dep ∈ deps, e.description = "Code dependency: " ++ dep) := by
  induction deps with
  | nil =>
    intro acc h
    exact Or.inl (by simpa using h)
  | cons dep rest ih =>
    intro acc h
    rw [List.foldl_cons] at h
    rcases ih _ h with hmem | hP
    · dsimp only at hmem
      revert hmem
      split
      · intro hmem
        split_ifs at hmem with hcond
        · simp only [List.mem_append, List.mem_singleton] at hmem
          rcases hmem with hacc | hone
          · exact Or.inl hacc
          · subst hone
            simp only [Bool.and_eq_true, decide_eq_true_eq] at hcond
            exact Or.inr ⟨rfl, fun hsd => hcond.2 hsd.symm, rfl,
              dep, List.mem_cons_self dep rest, rfl⟩
        · exact Or.inl hmem
      · intro hmem
        exact Or.inl hmem
    · obtain ⟨hsrc, hne, hty, d, hd, hdesc⟩ := hP
      exact Or.inr ⟨hsrc, hne, hty, d, List.mem_cons_of_mem dep hd, hdesc⟩

/-- C7: every edge emitted by the declared-dependency matcher is
non-self-referential (`from ≠ to`, even when a dependency's normalized
name matches the repository's own short name — the `matched_path !=
repo_path` guard), has kind `depends_on`, originates at the repository
whose dependency matched, and carries the description
`"Code dependency: <name>"` for one of that repository's declared
dependency names. -/
theorem dependency_match_sound (paths : List String)
    (repo_deps : List (String × List String)) (e : Edge)
    (he : e ∈ match_dependencies_to_repos paths repo_deps) :
    e.src ≠ e.dst ∧ e.type = "depends_on"
    ∧ ∃ entry ∈ repo_deps, entry.1 = e.src
        ∧ ∃ dep ∈ entry.2, e.description = "Code dependency: " ++ dep := by
  have aux : ∀ (rds : List (String × List String)) (acc : List Edge),
      e ∈ rds.foldl
        (fun edges entry =>
          entry.2.foldl
            (fun edges dep =>
              let dep_lower :=
                (splitOnChar '/' (pyLower dep)).getLastD (pyLower dep)
              let dep_normalized := replaceChar '-' '_' dep_lower
              match pyOrStr (buildNameToPath paths dep_lower)
                  (buildNameToPath paths dep_normalized) with
              | some matched_path =>
                if matched_path ≠ "" && matched_path ≠ entry.1 then
                  edges ++
                    [{ src := entry.1, dst := matched_path, type := "depends_on",
                       description := "Code dependency: " ++ dep,
                       confidence := none }]
                else edges
              | none => edges)
            edges) acc →
      e ∈ acc
      ∨ (e.src ≠ e.dst ∧ e.type = "depends_on"
         ∧ ∃ entry ∈ rds, entry.1 = e.src
             ∧ ∃ dep ∈ entry.2, e.description = "Code dependency: " ++ dep) := by
    intro rds
    induction rds with
    | nil =>
      intro acc h
      exact Or.inl (by simpa using h)
    | cons entry rest ih =>
      intro acc h
      rw [List.foldl_cons] at h
      rcases ih _ h with hmem | hP
      · rcases dep_fold_sound (buildNameToPath paths) entry.1 entry.2 e acc hmem
          with hacc | hP
        · exact Or.inl hacc
        · obtain ⟨hsrc, hne, hty, d, hd, hdesc⟩ := hP
          exact Or.inr ⟨hne, hty, entry, List.mem_cons_self entry rest,
            hsrc.symm, d, hd, hdesc⟩
      · obtain ⟨hne, hty, en, hen, hsrc, d, hd, hdesc⟩ := hP
        exact Or.inr ⟨hne, hty, en, List.mem_cons_of_mem entry hen,
          hsrc, d, hd, hdesc⟩
  rcases aux repo_deps [] he with h | h
  · simp at h
  · exact h

/-- C7 witness: with repositories o/a and o/b, o/a declaring dependencies
`A` (its own short name — skipped as a self-reference) and `B`, exactly one
edge o/a → o/b is produced, with the expected kind and description. -/
theorem dependency_match_sound_witness :
    match_dependencies_to_repos ["o/a", "o/b"] [("o/a", ["A", "B"])] =
      [{ src := "o/a", dst := "o/b", type := "depends_on",
         description := "Code dependency: B", confidence := none }]
    ∧ ({ src := "o/a", dst := "o/b", type := "depends_on",
         description := "Code dependency: B", confidence := none } : Edge).src
        ≠ ({ src := "o/a", dst := "o/b", type := "depends_on",
             description := "Code dependency: B", confidence := none } : Edge).dst
    ∧ ({ src := "o/a", dst := "o/b", type := "depends_on",
         description := "Code dependency: B", confidence := none } : Edge).type
        = "depends_on" :=
  ⟨by decide,
   (dependency_match_sound ["o/a", "o/b"] [("o/a", ["A", "B"])] _ (by decide)).1,
   (dependency_match_sound ["o/a", "o/b"] [("o/a", ["A", "B"])] _ (by decide)).2.1⟩

/-- Helper for C8: looking up a node of the enumerated sorted node list
yields the identifier `N<index>`, provided the list has no duplicates. -/
theorem lookup_nodeIdPairsFrom (l : List String) :
    ∀ (j i : Nat) (n : String), l.Nodup → l.get? i = some n →
      (nodeIdPairsFrom j l).lookup n = some ("N" ++ Nat.repr (j + i)) := by
  induction l with
  | nil =>
    intro j i n _ hget
    simp at hget
  | cons m rest ih =>
    intro j i n hnd hget
    cases i with
    | zero =>
      simp only [List.get?] at hget
      injection hget with hmn
      subst hmn
      simp [nodeIdPairsFrom, List.lookup]
    | succ i' =>
      have hmem : n ∈ rest := List.get?_mem hget
      have hne : m ≠ n := by
        intro hmn
        exact (List.nodup_cons.mp hnd).1 (hmn ▸ hmem)
      have harith : j + (i' + 1) = (j + 1) + i' := by omega
      rw [harith]
      have htail := ih (j + 1) i' n (List.nodup_cons.mp hnd).2
        (by simpa using hget)
      have hbeq : (n == m) = false := beq_eq_false_iff_ne.mpr (Ne.symm hne)
      simp [nodeIdPairsFrom, List.lookup, hbeq, htail]

/-- Helper for C8: the sorted node list of the renderer has no
duplicates (it enumerates the deduplicated endpoints). -/
theorem sortedNodes_nodup (edges : List Edge) : (sortedNodes edges).Nodup := by
  have h := List.perm_insertionSort (fun a b : String => pyStrLe a b = true)
    ((edges.foldr (fun e acc => e.src :: e.dst :: acc) []).dedup)
  exact h.symm.nodup (List.nodup_dedup _)

/-- C8: `generate_mermaid_graph` returns the fixed single-node placeholder
diagram on the empty edge list; it is a pure function, so identical inputs
give byte-identical output; and node identifiers are assigned as `N<i>`
where `i` is the node's position in the lexicographically sorted list of
the distinct endpoints of the edges. -/
theorem mermaid_renderer_spec :
    generate_mermaid_graph [] = "graph LR\n  A[No relationships found]"
    ∧ (∀ es es' : List Edge, es = es' →
        generate_mermaid_graph es = generate_mermaid_graph es')
    ∧ (∀ (es : List Edge) (i : Nat) (n : String),
        (sortedNodes es).get? i = some n →
        (nodeIdPairs es).lookup n = some ("N" ++ Nat.repr i)) := by
  refine ⟨rfl, fun es es' h => by rw [h], ?_⟩
  intro es i n hget
  have h := lookup_nodeIdPairsFrom (sortedNodes es) 0 i n
    (sortedNodes_nodup es) hget
  simpa [nodeIdPairs] using h

/-- C8 witness: on a concrete edge o/b → o/a the sorted distinct endpoints
are (o/a, o/b); the lexicographically first node o/a receives id N0. -/
theorem mermaid_renderer_spec_witness :
    (sortedNodes [{ src := "o/b", dst := "o/a", type := "depends_on",
                    description := "", confidence := none }]).get? 0
      = some "o/a"
    ∧ (nodeIdPairs [{ src := "o/b", dst := "o/a", type := "depends_on",
                      description := "", confidence := none }]).lookup "o/a"
      = some "N0" :=
  ⟨by decide,
   mermaid_renderer_spec.2.2
     [{ src := "o/b", dst := "o/a", type := "depends_on",
        description := "", confidence := none }] 0 "o/a" (by decide)⟩

/-- C9: `load_relations` is total — on a missing (or unreadable) relations
file, and equally on a file whose content `json.load` cannot parse, it
returns the empty graph structure
`analyzed_at = None, repos = empty, edges = []` instead of
propagating the error. -/
theorem load_relations_total_fallback (jsonLoad : String → Option Json) :
    load_relations none jsonLoad = emptyRelationsJson
    ∧ ∀ c, jsonLoad c = none →
        load_relations (some c) jsonLoad = emptyRelationsJson := by
  refine ⟨rfl, fun c h => ?_⟩
  simp [load_relations, h]

/-- C9 witness: a missing file and an unparseable file both yield the
empty structure. -/
theorem load_relations_total_fallback_witness :
    load_relations none (fun _ => none) = emptyRelationsJson
    ∧ load_relations (some "corrupt ~~ not json") (fun _ => none)
        = emptyRelationsJson :=
  ⟨(load_relations_total_fallback (fun _ => none)).1,
   (load_relations_total_fallback (fun _ => none)).2 "corrupt ~~ not json" rfl⟩

/-- C10: `get_related_repos` is total at the public interface — for every
persisted graph and every repository path with no entry in its `repos`
mapping it returns the empty list (the chained `.get` defaults), and in
particular it returns the empty list for every path when no graph has ever
been persisted (the empty structure `load_relations` falls back to). -/
theorem get_related_repos_total (data : RelGraph) (repo_path : String)
    (habsent : data.repos.lookup repo_path = none) :
    get_related_repos data repo_path = []
    ∧ ∀ p, get_related_repos emptyRelGraph p = [] := by
  constructor
  · simp [get_related_repos, habsent]
  · intro p
    rfl

/-- C10 witness: a graph holding only an entry for o/a returns the empty
list for the absent path o/zzz. -/
theorem get_related_repos_total_witness :
    get_related_repos
        { analyzed_at := some "2024-01-01T00:00:00Z",
          repos := [("o/a", { path := "o/a", summary := "", tech_stack := [],
                              related := ["o/b"] })],
          edges := [] } "o/zzz" = []
    ∧ get_related_repos emptyRelGraph "o/zzz" = [] :=
  ⟨(get_related_repos_total
      { analyzed_at := some "2024-01-01T00:00:00Z",
        repos := [("o/a", { path := "o/a", summary := "", tech_stack := [],
                            related := ["o/b"] })],
        edges := [] } "o/zzz" (by decide)).1,
   (get_related_repos_total
      { analyzed_at := some "2024-01-01T00:00:00Z",
        repos := [("o/a", { path := "o/a", summary := "", tech_stack := [],
                            related := ["o/b"] })],
        edges := [] } "o/zzz" (by decide)).2 "o/zzz"⟩

end RepoRelations
